import Mathlib

/-!
Shallow embedding of `src/main.c` of the Puneet56/flappy-birds repository.

Machine floats are modelled by exact rationals (`ℚ`): every floating constant
of the source (`1.5f`, `0.99f`, `1.0f/8.0f`, ...) is exactly representable,
and the quantitative claims are stated up to floating rounding. C `int`
values are modelled by `ℤ` (or `ℕ` where the source value is manifestly
non-negative); the C float-to-int conversion truncates toward zero, and C
`int` division is `Int.tdiv` (truncation toward zero).

Only the state-changing part of each source function is embedded; the draw
calls themselves go to the raylib backend and change no program state, except
that `DrawBird` and `DrawScrollingBackground` mutate the entity they draw,
which is exactly what the definitions below capture.
-/

namespace Flappy

/-- A raylib `Vector2`, components modelled by `ℚ`. -/
structure Vec2 where
  x : ℚ
  y : ℚ
deriving DecidableEq, Repr

/-- raymath `Vector2Add`. -/
def Vector2Add (v1 v2 : Vec2) : Vec2 := ⟨v1.x + v2.x, v1.y + v2.y⟩

/-- raymath `Vector2Scale`. -/
def Vector2Scale (v : Vec2) (scale : ℚ) : Vec2 := ⟨v.x * scale, v.y * scale⟩

/-- raymath `Clamp`: raise `value` to `lo` first, then cap the result at `hi`. -/
def Clamp (value lo hi : ℚ) : ℚ :=
  let r := if value < lo then lo else value
  if r > hi then hi else r

/-- raymath `Remap`: linear remap of `value` from `[inS, inE]` to
`[outS, outE]`, with no clamping of input or output. -/
def Remap (value inS inE outS outE : ℚ) : ℚ :=
  (value - inS) / (inE - inS) * (outE - outS) + outS

/-- C float-to-int conversion: truncation toward zero. -/
def cInt (q : ℚ) : ℤ := if 0 ≤ q then ⌊q⌋ else -⌊-q⌋

/-- src/main.c:8. -/
def SCREEN_HEIGHT : ℚ := 768

/-- src/main.c:9, kept as `ℤ` because the source uses it in `int` division. -/
def SCREEN_WIDTH : ℤ := 1300

/-- src/main.c:11, `1.5f`. -/
def SCALE : ℚ := 3 / 2

/-- src/main.c:13. -/
def MAX_VELOCITY : ℚ := 800

/-- src/main.c:14. -/
def MIN_VELOCITY : ℚ := -400

/-- src/main.c:16. -/
def BG_SPEED : ℚ := 40

/-- src/main.c:17. -/
def BG_POS_Y : ℚ := 0

/-- src/main.c:18. -/
def BASE_SPEED : ℚ := BG_SPEED * 3

/-- src/main.c:19. -/
def BASE_POS_Y : ℚ := 600

/-- The `Bird` struct (src/main.c:24-35). The texture array is external
backend state; the bird observes it only through `textureLength` and, at
creation, through the width of its first texture, so the pointer itself is
not part of the embedded state. -/
structure Bird where
  position : Vec2
  velocity : Vec2
  radius : ℚ
  textureLength : ℕ
  currentFrame : ℕ
  frameTimer : ℚ
  frameDuration : ℚ
  angle : ℚ
deriving DecidableEq, Repr

/-- `CreateBird` (src/main.c:37-52); `firstW` stands for `textures[0].width`. -/
def CreateBird (firstW : ℚ) (length : ℕ) : Bird :=
  { position := ⟨100, SCREEN_HEIGHT / 2⟩
    velocity := ⟨0, 0⟩
    radius := firstW / 2
    textureLength := length
    currentFrame := 0
    frameTimer := 0
    frameDuration := 1 / 8
    angle := 0 }

/-- src/main.c:202. -/
def gravity : Vec2 := ⟨0, 980⟩

/-- src/main.c:203. -/
def jumpForce : Vec2 := ⟨0, -400⟩

/-- One started-game physics tick of `main`, transcribing src/main.c:213-235
statement by statement: jump assignment when SPACE was pressed this tick
(src/main.c:213-215), gravity integration (218), vertical-velocity clamp to
the hardcoded `[-1200, 1500]` (219), position integration (221-222), the
`0.99` vertical damping (224), the ground clamp (226-229), and the ceiling
clamp (231-234). -/
def physicsTick (jump : Bool) (dt : ℚ) (b0 : Bird) : Bird :=
  let b := if jump then { b0 with velocity := jumpForce } else b0
  let b := { b with velocity := Vector2Add b.velocity (Vector2Scale gravity dt) }
  let b := { b with velocity := ⟨b.velocity.x, Clamp b.velocity.y (-1200) 1500⟩ }
  let b := { b with position := Vector2Add b.position (Vector2Scale b.velocity dt) }
  let b := { b with velocity := ⟨b.velocity.x, b.velocity.y * (99 / 100)⟩ }
  let b := if b.position.y > BASE_POS_Y - b.radius * SCALE then
      { b with position := ⟨b.position.x, BASE_POS_Y - b.radius * SCALE⟩
               velocity := ⟨b.velocity.x, 0⟩ }
    else b
  let b := if b.position.y < b.radius * SCALE then
      { b with position := ⟨b.position.x, b.radius * SCALE⟩
               velocity := ⟨b.velocity.x, 0⟩ }
    else b
  b

/-- The jump assignment of the input phase (src/main.c:213-215) as a single
named step. -/
def inputStep (jump : Bool) (b : Bird) : Bird :=
  if jump then { b with velocity := jumpForce } else b

/-- Gravity integration (src/main.c:218) as a single named step. -/
def gravityStep (dt : ℚ) (b : Bird) : Bird :=
  { b with velocity := Vector2Add b.velocity (Vector2Scale gravity dt) }

/-- The vertical-velocity clamp (src/main.c:219) as a single named step. -/
def clampStep (b : Bird) : Bird :=
  { b with velocity := ⟨b.velocity.x, Clamp b.velocity.y (-1200) 1500⟩ }

/-- Position integration (src/main.c:221-222) as a single named step. -/
def positionStep (dt : ℚ) (b : Bird) : Bird :=
  { b with position := Vector2Add b.position (Vector2Scale b.velocity dt) }

/-- The `0.99` vertical-velocity damping (src/main.c:224) as a single named
step. -/
def dampStep (b : Bird) : Bird :=
  { b with velocity := ⟨b.velocity.x, b.velocity.y * (99 / 100)⟩ }

/-- The ground position clamp (src/main.c:226-229) as a single named step. -/
def groundClampStep (b : Bird) : Bird :=
  if b.position.y > BASE_POS_Y - b.radius * SCALE then
    { b with position := ⟨b.position.x, BASE_POS_Y - b.radius * SCALE⟩
             velocity := ⟨b.velocity.x, 0⟩ }
  else b

/-- The ceiling position clamp (src/main.c:231-234) as a single named step. -/
def ceilingClampStep (b : Bird) : Bird :=
  if b.position.y < b.radius * SCALE then
    { b with position := ⟨b.position.x, b.radius * SCALE⟩
             velocity := ⟨b.velocity.x, 0⟩ }
  else b

/-- The vertical velocity immediately after the velocity-integration-and-clamp
step of a tick (src/main.c:218-219), before position integration. -/
def velocityAfterClamp (jump : Bool) (dt : ℚ) (b : Bird) : ℚ :=
  (clampStep (gravityStep dt (inputStep jump b))).velocity.y

/-- The state mutation of `DrawBird` (src/main.c:62-97): accumulate `dt` into
`frameTimer` (65); when the accumulated timer reaches `frameDuration`,
subtract `frameDuration` and advance `currentFrame` by one, wrapping to 0
past the last frame (68-79) — at most one advance per call; then recompute
`angle` from `velocity.y` by `Remap`, unless `velocity.y` is exactly zero, in
which case the old angle persists (91-93). The draw calls themselves change
no state. -/
def drawBirdUpdate (dt : ℚ) (b : Bird) : Bird :=
  let b :=
    if b.frameTimer + dt ≥ b.frameDuration then
      { b with frameTimer := b.frameTimer + dt - b.frameDuration
               currentFrame :=
                 if b.currentFrame + 1 ≥ b.textureLength then 0
                 else b.currentFrame + 1 }
    else { b with frameTimer := b.frameTimer + dt }
  if b.velocity.y ≠ 0 then
    { b with angle := Remap b.velocity.y MIN_VELOCITY MAX_VELOCITY (-30) 90 }
  else b

/-- The `ScrollingBackground` struct (src/main.c:99-104), with the texture
represented by its integer dimensions. -/
structure ScrollingBackground where
  textureWidth : ℤ
  textureHeight : ℤ
  posX : ℚ
  posY : ℚ
  scrollSpeed : ℚ
deriving DecidableEq, Repr

/-- `CreateScrollingBackground` (src/main.c:106-112). -/
def CreateScrollingBackground (w h : ℤ) (posY speed : ℚ) : ScrollingBackground :=
  { textureWidth := w, textureHeight := h, posX := 0, posY := posY, scrollSpeed := speed }

/-- The state mutation of `DrawScrollingBackground` (src/main.c:114-120):
decrement `posX` by `scrollSpeed * dt`; when it reaches
`-texture.width * 1.5f` (the UNSCALED texture width times `1.5f`), reset it
to 0. -/
def scrollStep (dt : ℚ) (bg : ScrollingBackground) : ScrollingBackground :=
  let p := bg.posX - bg.scrollSpeed * dt
  { bg with posX := if p ≤ -(bg.textureWidth : ℚ) * (3 / 2) then 0 else p }

/-- Scaled tile width `int txW = bg->texture.width * SCALE` (src/main.c:125),
truncated to `int` as in C. -/
def txW (bg : ScrollingBackground) : ℤ :=
  cInt ((bg.textureWidth : ℚ) * SCALE)

/-- Tile-copy count of `DrawScrollingBackground` (src/main.c:126-129):
`2 + SCREEN_WIDTH / txW` with C truncating `int` division, overridden by
`2 + txW / SCREEN_WIDTH` when the scaled tile width exceeds the screen
width. -/
def renderCount (bg : ScrollingBackground) : ℤ :=
  if txW bg > SCREEN_WIDTH then 2 + Int.tdiv (txW bg) SCREEN_WIDTH
  else 2 + Int.tdiv SCREEN_WIDTH (txW bg)

/-- The x-coordinates at which `DrawScrollingBackground` places its tile
copies (src/main.c:131-137): copy `i` is drawn at `posX + i * dest.width`.
The source reads `dest.width` inside the very initializer of `dest`, before
the field is initialized — in C that is an indeterminate value (undefined
behaviour). The parameter `destWidthJunk` stands for whatever value that
read yields; the evident intent of the code is `txW`, the value the same
initializer assigns to `dest.width` right afterwards. -/
def drawXs (bg : ScrollingBackground) (destWidthJunk : ℚ) : List ℚ :=
  (List.range (renderCount bg).toNat).map fun i => bg.posX + (i : ℚ) * destWidthJunk

/-- The texture assets `main` loads (src/main.c:151-186). -/
inductive Tex
  | bg
  | base
  | pipe
  | bird0
  | bird1
  | bird2
deriving DecidableEq, Repr

/-- Which of the six `LoadTexture` calls of `main` yield a valid texture
(`IsTextureValid`, src/main.c:152-197). -/
structure LoadOutcome where
  bgOk : Bool
  baseOk : Bool
  pipeOk : Bool
  bird0Ok : Bool
  bird1Ok : Bool
  bird2Ok : Bool
deriving DecidableEq, Repr

/-- The resource trace of one run of `main`: which textures were acquired,
which were released before termination, and the exit code. -/
structure ExitTrace where
  acquired : List Tex
  released : List Tex
  exitCode : ℤ
deriving DecidableEq, Repr

/-- Resource behaviour of `main` (src/main.c:145-258), transcribing its
control flow. A failed `LoadTexture` acquires nothing; each early-return
path (src/main.c:152-155, 163-166, 174-177, 190-193) logs, closes the
window and returns 1 WITHOUT unloading anything. The bird textures are all
loaded (182-186) before any of them is validity-checked (189-197). On the
normal path the loop runs to completion and `DestroyBird` unloads the three
bird textures, then `DestroyAnimation` unloads the background and the base
(253-255); `pipeTexture` is never unloaded on any path. -/
def mainTrace (o : LoadOutcome) : ExitTrace :=
  if !o.bgOk then ⟨[], [], 1⟩
  else if !o.baseOk then ⟨[Tex.bg], [], 1⟩
  else if !o.pipeOk then ⟨[Tex.bg, Tex.base], [], 1⟩
  else
    let birdAcquired :=
      (if o.bird0Ok then [Tex.bird0] else []) ++
      (if o.bird1Ok then [Tex.bird1] else []) ++
      (if o.bird2Ok then [Tex.bird2] else [])
    let acquired := [Tex.bg, Tex.base, Tex.pipe] ++ birdAcquired
    if !(o.bird0Ok && o.bird1Ok && o.bird2Ok) then ⟨acquired, [], 1⟩
    else ⟨acquired, [Tex.bird0, Tex.bird1, Tex.bird2, Tex.bg, Tex.base], 0⟩

/-- The per-frame external inputs of the main loop: the two edge-triggered
key polls and the frame delta time. -/
structure FrameInput where
  sPressed : Bool
  spacePressed : Bool
  dt : ℚ
deriving Repr

/-- The mutable state the main loop carries across iterations
(src/main.c:149, 159-160, 170-171, 199). -/
structure GameState where
  gameStarted : Bool
  bird : Bird
  background : ScrollingBackground
  base : ScrollingBackground
deriving Repr

/-- One iteration of the main loop (src/main.c:206-251): latch the start
flag on S (209-211), jump on SPACE once started (213-215), run the physics
tick when started (217-235), then the draw calls that mutate state:
`DrawScrollingBackground` on the background (239), `DrawBird` (241) and
`DrawScrollingBackground` on the base (242). -/
def frameStep (inp : FrameInput) (g : GameState) : GameState :=
  let started := g.gameStarted || inp.sPressed
  let jump := inp.spacePressed && started
  let bird := if started then physicsTick jump inp.dt g.bird else g.bird
  let background := scrollStep inp.dt g.background
  let bird := drawBirdUpdate inp.dt bird
  let base := scrollStep inp.dt g.base
  { gameStarted := started, bird := bird, background := background, base := base }

/-- The state of `main` before the first loop iteration (src/main.c:145-203):
`firstW` is the pixel width of `bluebird-upflap.png`, the other parameters
the background and base texture dimensions. -/
def initialState (firstW : ℚ) (bgW bgH baseW baseH : ℤ) : GameState :=
  { gameStarted := false
    bird := CreateBird firstW 3
    background := CreateScrollingBackground bgW bgH BG_POS_Y BG_SPEED
    base := CreateScrollingBackground baseW baseH BASE_POS_Y BASE_SPEED }

/-- Runs the main loop over a list of per-frame inputs. -/
def runFrames (inputs : List FrameInput) (g : GameState) : GameState :=
  inputs.foldl (fun s i => frameStep i s) g

/-- The bird as created in the actual game: `bluebird-upflap.png` is 34
pixels wide and there are three flap frames, so `radius = 17`. -/
def birdEx : Bird := CreateBird 34 3

/-- A scrolling layer 100 pixels wide moving at speed 80, for concrete runs
of `scrollStep`. -/
def bgEx2 : ScrollingBackground := CreateScrollingBackground 100 50 0 80

/-- The layer `bgEx2` after one `DrawScrollingBackground` call with `dt = 1`. -/
def bgEx2a : ScrollingBackground := scrollStep 1 bgEx2

/-- A scrolling layer 100 pixels wide (scaled tile width `txW = 150`), for
concrete runs of the tiling computation. -/
def bgEx3 : ScrollingBackground := CreateScrollingBackground 100 200 0 40

/-- The bird `birdEx` with vertical velocity 100, well inside every clamp
bound and away from both position clamps. -/
def birdEx8 : Bird := { birdEx with velocity := ⟨0, 100⟩ }

/-- Lower bound of raymath `Clamp`, provided the bounds are ordered. -/
lemma le_Clamp (value lo hi : ℚ) (h : lo ≤ hi) : lo ≤ Clamp value lo hi := by
  unfold Clamp
  dsimp only
  split_ifs <;> linarith

/-- Upper bound of raymath `Clamp`, provided the bounds are ordered. -/
lemma Clamp_le (value lo hi : ℚ) (h : lo ≤ hi) : Clamp value lo hi ≤ hi := by
  unfold Clamp
  dsimp only
  split_ifs <;> linarith

/-- The monolithic tick of `main` is the composition of the named phase
steps, in source order. -/
lemma physicsTick_eq_steps (jump : Bool) (dt : ℚ) (b : Bird) :
    physicsTick jump dt b =
      ceilingClampStep (groundClampStep (dampStep (positionStep dt
        (clampStep (gravityStep dt (inputStep jump b)))))) := by
  cases jump <;> rfl

/-- C1: the claim is false on the code. The clamp at src/main.c:219 uses the
hardcoded bounds `[-1200, 1500]`, not `[MIN_VELOCITY, MAX_VELOCITY] =
[-400, 800]` (those macros are only used for the angle remap). Concretely, a
resting bird integrated with `dt = 1` has vertical velocity `980` right
after the velocity-integration-and-clamp step, outside `[-400, 800]`. -/
theorem C1_velocity_clamp_counterexample :
    velocityAfterClamp false 1 birdEx = 980 ∧
    ¬(MIN_VELOCITY ≤ velocityAfterClamp false 1 birdEx ∧
      velocityAfterClamp false 1 birdEx ≤ MAX_VELOCITY) := by
  have h : velocityAfterClamp false 1 birdEx = 980 := by
    norm_num [velocityAfterClamp, clampStep, gravityStep, inputStep, birdEx, CreateBird,
      Vector2Add, Vector2Scale, Clamp, gravity, jumpForce, SCREEN_HEIGHT]
  refine ⟨h, ?_⟩
  rw [h]
  norm_num [MAX_VELOCITY]

/-- C1 (amended): for every physics tick with `dt ≥ 0`, any jump input and
any prior bird state, the vertical velocity immediately after the
velocity-integration-and-clamp step lies within the bounds the code actually
clamps to, `[-1200, 1500]`. -/
theorem C1_velocity_clamp_amended (b : Bird) (jump : Bool) (dt : ℚ) (hdt : 0 ≤ dt) :
    -1200 ≤ velocityAfterClamp jump dt b ∧ velocityAfterClamp jump dt b ≤ 1500 :=
  ⟨le_Clamp _ _ _ (by norm_num), Clamp_le _ _ _ (by norm_num)⟩

/-- C1 witness: the amended bound at the concrete game bird with `dt = 1`. -/
theorem C1_velocity_clamp_amended_witness :
    0 ≤ (1 : ℚ) ∧
    (-1200 ≤ velocityAfterClamp false 1 birdEx ∧
      velocityAfterClamp false 1 birdEx ≤ 1500) :=
  ⟨by norm_num, C1_velocity_clamp_amended birdEx false 1 (by norm_num)⟩

/-- C2: the claim is false on the code. The reset threshold at
src/main.c:118 is `-texture.width * 1.5f` with the UNSCALED texture width,
not `-width * scale * 1.5`. Starting from `posX = 0` on a 100-pixel-wide
layer with speed 80 and `dt = 1`: the first call leaves `posX = -80`; the
second call decrements it to `-160`, which has not reached the claimed
threshold `-(100 * 1.5) * 1.5 = -225`, yet the code resets `posX` to `0` —
so after two ticks `posX` is neither the claimed decremented value `-160`
nor the claimed modular value `-((2*80*1) mod 225) = -160`. -/
theorem C2_scroll_reset_counterexample :
    bgEx2a.posX = -80 ∧
    bgEx2a.posX - bgEx2a.scrollSpeed * 1 = -160 ∧
    ¬(bgEx2a.posX - bgEx2a.scrollSpeed * 1 ≤
        -((bgEx2a.textureWidth : ℚ) * SCALE) * (3 / 2)) ∧
    (scrollStep 1 bgEx2a).posX = 0 ∧
    (scrollStep 1 bgEx2a).posX ≠ -160 := by
  norm_num [bgEx2a, bgEx2, scrollStep, CreateScrollingBackground, SCALE]

/-- Invariant of a run of `scrollStep`: a positive-width layer with
non-negative speed, stepped by non-negative `dt` values from a state with
`posX` in `(-width * 1.5, 0]`, stays in `(-width * 1.5, 0]` (and its
texture width is never written). -/
lemma scrollRun_inv (dts : List ℚ) :
    ∀ bg : ScrollingBackground, (∀ dt ∈ dts, 0 ≤ dt) →
      0 < bg.textureWidth → 0 ≤ bg.scrollSpeed →
      bg.posX ≤ 0 → -(bg.textureWidth : ℚ) * (3 / 2) < bg.posX →
      (dts.foldl (fun s dt => scrollStep dt s) bg).textureWidth = bg.textureWidth ∧
      (dts.foldl (fun s dt => scrollStep dt s) bg).posX ≤ 0 ∧
      -(bg.textureWidth : ℚ) * (3 / 2) <
        (dts.foldl (fun s dt => scrollStep dt s) bg).posX := by
  induction dts with
  | nil => exact fun bg _ _ _ h1 h2 => ⟨rfl, h1, h2⟩
  | cons dt dts ih =>
    intro bg hdts hw hs h1 h2
    have hdt : 0 ≤ dt := hdts dt (List.mem_cons_self dt dts)
    have hwq : (0 : ℚ) < (bg.textureWidth : ℚ) := by exact_mod_cast hw
    have hstep :
        (scrollStep dt bg).textureWidth = bg.textureWidth ∧
        (scrollStep dt bg).scrollSpeed = bg.scrollSpeed ∧
        (scrollStep dt bg).posX ≤ 0 ∧
        -(bg.textureWidth : ℚ) * (3 / 2) < (scrollStep dt bg).posX := by
      unfold scrollStep
      refine ⟨rfl, rfl, ?_, ?_⟩
      · dsimp only
        split_ifs with h
        · exact le_refl 0
        · nlinarith [mul_nonneg hs hdt]
      · dsimp only
        split_ifs with h
        · nlinarith
        · push_neg at h
          linarith
    have hrest := ih (scrollStep dt bg) (fun d hd => hdts d (List.mem_cons_of_mem dt hd))
      (hstep.1 ▸ hw) (hstep.2.1 ▸ hs) hstep.2.2.1 (hstep.1 ▸ hstep.2.2.2)
    refine ⟨?_, ?_, ?_⟩
    · simpa [List.foldl_cons] using hstep.1 ▸ hrest.1
    · simpa [List.foldl_cons] using hrest.2.1
    · have := hrest.2.2
      rw [hstep.1] at this
      simpa [List.foldl_cons] using this

/-- C2 (amended): each `DrawScrollingBackground` call decrements `posX` by
`scrollSpeed * dt` and resets it to exactly 0 once it reaches or crosses
`-width * 1.5` (the unscaled texture width, src/main.c:118); consequently,
over any run of calls with non-negative `dt` and non-negative speed starting
from `posX = 0`, `posX` stays `≤ 0` and strictly greater than
`-width * 1.5`. The reset is to 0 rather than a modular wrap, so no
`-((N*s*dt) mod threshold)` formula holds. -/
theorem C2_scroll_invariant_amended (w h : ℤ) (posY speed : ℚ) (dts : List ℚ)
    (hw : 0 < w) (hs : 0 ≤ speed) (hdts : ∀ dt ∈ dts, 0 ≤ dt) :
    (dts.foldl (fun s dt => scrollStep dt s)
        (CreateScrollingBackground w h posY speed)).posX ≤ 0 ∧
    -(w : ℚ) * (3 / 2) <
      (dts.foldl (fun s dt => scrollStep dt s)
        (CreateScrollingBackground w h posY speed)).posX ∧
    (∀ bg : ScrollingBackground, (scrollStep dts.headI bg).posX =
      if bg.posX - bg.scrollSpeed * dts.headI ≤ -(bg.textureWidth : ℚ) * (3 / 2) then 0
      else bg.posX - bg.scrollSpeed * dts.headI) := by
  have hwq : (0 : ℚ) < (w : ℚ) := by exact_mod_cast hw
  have h0 := scrollRun_inv dts (CreateScrollingBackground w h posY speed) hdts
    hw hs (le_refl 0) (by simpa [CreateScrollingBackground] using by nlinarith)
  exact ⟨h0.2.1, h0.2.2, fun bg => rfl⟩

/-- C2 witness: the amended invariant on a two-tick run that triggers the
reset (`posX` goes `0 → -80 → 0`). -/
theorem C2_scroll_invariant_amended_witness :
    (0 : ℤ) < 100 ∧ (0 : ℚ) ≤ 80 ∧ (∀ dt ∈ ([1, 1] : List ℚ), 0 ≤ dt) ∧
    (([1, 1] : List ℚ).foldl (fun s dt => scrollStep dt s)
        (CreateScrollingBackground 100 50 0 80)).posX ≤ 0 ∧
    -((100 : ℤ) : ℚ) * (3 / 2) <
      (([1, 1] : List ℚ).foldl (fun s dt => scrollStep dt s)
        (CreateScrollingBackground 100 50 0 80)).posX :=
  ⟨by norm_num, by norm_num, by intro dt hdt; simp at hdt; simp [hdt],
    (C2_scroll_invariant_amended 100 50 0 80 [1, 1] (by norm_num) (by norm_num)
      (by intro dt hdt; simp at hdt; simp [hdt])).1,
    (C2_scroll_invariant_amended 100 50 0 80 [1, 1] (by norm_num) (by norm_num)
      (by intro dt hdt; simp at hdt; simp [hdt])).2.1⟩

/-- C3: the tile-count formulas of the claim match the code (`txW = 150`,
`renderCount = 2 + 1300 / 150 = 10` on a 100-pixel-wide texture), but the
claimed spacing does not: src/main.c:132 computes each copy position as
`posX + i * dest.width` where `dest.width` is read BEFORE `dest` is
initialized (undefined behaviour in C). The claimed positions arise only if
that indeterminate value happens to equal `txW`; with indeterminate value 0
every copy lands at `posX`. -/
theorem C3_tiling_spacing_bug :
    txW bgEx3 = 150 ∧
    renderCount bgEx3 = 10 ∧
    drawXs bgEx3 ((txW bgEx3 : ℤ) : ℚ) =
      [0, 150, 300, 450, 600, 750, 900, 1050, 1200, 1350] ∧
    drawXs bgEx3 0 = [0, 0, 0, 0, 0, 0, 0, 0, 0, 0] ∧
    drawXs bgEx3 0 ≠ drawXs bgEx3 ((txW bgEx3 : ℤ) : ℚ) := by
  have h1 : txW bgEx3 = 150 := by
    norm_num [txW, cInt, bgEx3, CreateScrollingBackground, SCALE]
  have h2 : renderCount bgEx3 = 10 := by
    rw [renderCount, h1]
    norm_num [SCREEN_WIDTH]
    rfl
  have h3 : (renderCount bgEx3).toNat = 10 := by
    rw [h2]
    rfl
  have e1 : drawXs bgEx3 ((txW bgEx3 : ℤ) : ℚ) =
      [0, 150, 300, 450, 600, 750, 900, 1050, 1200, 1350] := by
    rw [drawXs, h3, h1]
    simp [List.range_succ, bgEx3, CreateScrollingBackground]
    norm_num
  have e0 : drawXs bgEx3 0 = [0, 0, 0, 0, 0, 0, 0, 0, 0, 0] := by
    rw [drawXs, h3]
    simp [List.range_succ, bgEx3, CreateScrollingBackground]
  refine ⟨h1, h2, e1, e0, ?_⟩
  rw [e0, e1]
  norm_num

/-- C9: the claim is the intended policy but the code leaks. When
`base.png` fails to load (src/main.c:163-166) the program logs, closes the
window and returns 1 WITHOUT unloading the already-acquired background
texture; and on the normal exit path `pipeTexture` is acquired but never
unloaded (no `UnloadTexture` for it anywhere, src/main.c:253-257). -/
theorem C9_resource_release_bug :
    mainTrace ⟨true, false, true, true, true, true⟩ =
      { acquired := [Tex.bg], released := [], exitCode := 1 } ∧
    Tex.bg ∈ (mainTrace ⟨true, false, true, true, true, true⟩).acquired ∧
    Tex.bg ∉ (mainTrace ⟨true, false, true, true, true, true⟩).released ∧
    Tex.pipe ∈ (mainTrace ⟨true, true, true, true, true, true⟩).acquired ∧
    Tex.pipe ∉ (mainTrace ⟨true, true, true, true, true, true⟩).released ∧
    (mainTrace ⟨true, true, true, true, true, true⟩).exitCode = 0 := by
  decide

/-- The two position clamps at the end of a tick force `position.y` into
`[radius*SCALE, BASE_POS_Y - radius*SCALE]` whenever that interval is
non-empty, and zero the vertical velocity whenever either triggers. -/
lemma clamps_bound (c : Bird) (hr : c.radius * SCALE ≤ BASE_POS_Y - c.radius * SCALE) :
    (c.radius * SCALE ≤ (ceilingClampStep (groundClampStep c)).position.y ∧
      (ceilingClampStep (groundClampStep c)).position.y ≤ BASE_POS_Y - c.radius * SCALE) ∧
    ((BASE_POS_Y - c.radius * SCALE < c.position.y ∨ c.position.y < c.radius * SCALE) →
      (ceilingClampStep (groundClampStep c)).velocity.y = 0) := by
  unfold ceilingClampStep groundClampStep
  split_ifs with h1 h2 h3 <;> simp_all

/-- C4: after every physics tick with `dt ≥ 0`, on any bird whose radius
keeps the two clamp bounds ordered (the real bird has radius 17, well below
the 200 -pixel limit), `position.y` lies in
`[radius*SCALE, BASE_POS_Y - radius*SCALE]` with `BASE_POS_Y = 600`, and on
any tick where either position clamp triggers (the pre-clamp integrated
position left the interval) the resulting vertical velocity is exactly 0. -/
theorem C4_position_clamp_invariant (b : Bird) (jump : Bool) (dt : ℚ)
    (hdt : 0 ≤ dt)
    (hr : b.radius * SCALE ≤ BASE_POS_Y - b.radius * SCALE) :
    (b.radius * SCALE ≤ (physicsTick jump dt b).position.y ∧
      (physicsTick jump dt b).position.y ≤ BASE_POS_Y - b.radius * SCALE) ∧
    ((BASE_POS_Y - b.radius * SCALE <
        (dampStep (positionStep dt (clampStep (gravityStep dt (inputStep jump b))))).position.y ∨
      (dampStep (positionStep dt (clampStep (gravityStep dt (inputStep jump b))))).position.y <
        b.radius * SCALE) →
      (physicsTick jump dt b).velocity.y = 0) := by
  have hrad : (dampStep (positionStep dt (clampStep (gravityStep dt (inputStep jump b))))).radius
      = b.radius := by
    cases jump <;> rfl
  rw [physicsTick_eq_steps]
  have h := clamps_bound
    (dampStep (positionStep dt (clampStep (gravityStep dt (inputStep jump b)))))
    (by rw [hrad]; exact hr)
  rw [hrad] at h
  exact h

/-- C4 witness: the invariant at the concrete game bird with `dt = 1` and no
jump. -/
theorem C4_position_clamp_invariant_witness :
    0 ≤ (1 : ℚ) ∧ birdEx.radius * SCALE ≤ BASE_POS_Y - birdEx.radius * SCALE ∧
    ((birdEx.radius * SCALE ≤ (physicsTick false 1 birdEx).position.y ∧
      (physicsTick false 1 birdEx).position.y ≤ BASE_POS_Y - birdEx.radius * SCALE) ∧
    ((BASE_POS_Y - birdEx.radius * SCALE <
        (dampStep (positionStep 1 (clampStep (gravityStep 1 (inputStep false birdEx))))).position.y ∨
      (dampStep (positionStep 1 (clampStep (gravityStep 1 (inputStep false birdEx))))).position.y <
        birdEx.radius * SCALE) →
      (physicsTick false 1 birdEx).velocity.y = 0)) :=
  ⟨by norm_num, by norm_num [birdEx, CreateBird, SCALE, BASE_POS_Y],
    C4_position_clamp_invariant birdEx false 1 (by norm_num)
      (by norm_num [birdEx, CreateBird, SCALE, BASE_POS_Y])⟩

/-- C8: the claim is false on the code: a tick with `dt = 0` and no jump is
NOT a no-op, because the `0.99` damping at src/main.c:224 applies per tick
regardless of `dt`. On the game bird with vertical velocity 100 (inside all
clamp bounds, position well inside the play field), the tick with `dt = 0`
changes the vertical velocity to 99. -/
theorem C8_dt_zero_counterexample :
    birdEx8.velocity.y = 100 ∧
    (physicsTick false 0 birdEx8).velocity.y = 99 ∧
    physicsTick false 0 birdEx8 ≠ birdEx8 := by
  have hy : (physicsTick false 0 birdEx8).velocity.y = 99 := by
    norm_num [physicsTick, birdEx8, birdEx, CreateBird, Vector2Add, Vector2Scale, Clamp,
      gravity, jumpForce, SCREEN_HEIGHT, BASE_POS_Y, SCALE]
  refine ⟨rfl, hy, fun hcontra => ?_⟩
  rw [hcontra] at hy
  norm_num [birdEx8] at hy

/-- C8 (amended): on a tick with `dt = 0` and no jump, for a bird inside the
velocity clamp bounds and inside the position clamp interval, position,
horizontal velocity, angle and all animation state are unchanged, but the
vertical velocity is still multiplied by the per-tick damping factor `0.99`;
the physics update is a complete no-op exactly when the vertical velocity is
already 0. -/
theorem C8_dt_zero_amended (b : Bird)
    (hv1 : -1200 ≤ b.velocity.y) (hv2 : b.velocity.y ≤ 1500)
    (hp1 : b.radius * SCALE ≤ b.position.y)
    (hp2 : b.position.y ≤ BASE_POS_Y - b.radius * SCALE) :
    physicsTick false 0 b =
      { b with velocity := ⟨b.velocity.x, b.velocity.y * (99 / 100)⟩ } ∧
    (b.velocity.y = 0 → physicsTick false 0 b = b) := by
  obtain ⟨⟨px, py⟩, ⟨vx, vy⟩, r, len, cf, ft, fd, ang⟩ := b
  simp only at hv1 hv2 hp1 hp2
  have key : physicsTick false 0 ⟨⟨px, py⟩, ⟨vx, vy⟩, r, len, cf, ft, fd, ang⟩ =
      ⟨⟨px, py⟩, ⟨vx, vy * (99 / 100)⟩, r, len, cf, ft, fd, ang⟩ := by
    simp only [physicsTick, Vector2Add, Vector2Scale, Clamp, gravity, jumpForce,
      Bool.false_eq_true, if_false]
    norm_num
    split_ifs with h1 h2 h3 h4 h5 h6 h7 h8 h9 <;>
      simp_all <;> first | rfl | linarith
  refine ⟨key, fun h0 => ?_⟩
  simp only at h0
  rw [key, h0]
  norm_num

/-- C8 witness: the amended characterization on the bird with vertical
velocity 100, whose `dt = 0` tick damps the velocity to 99. -/
theorem C8_dt_zero_amended_witness :
    -1200 ≤ birdEx8.velocity.y ∧ birdEx8.velocity.y ≤ 1500 ∧
    birdEx8.radius * SCALE ≤ birdEx8.position.y ∧
    birdEx8.position.y ≤ BASE_POS_Y - birdEx8.radius * SCALE ∧
    physicsTick false 0 birdEx8 =
      { birdEx8 with velocity := ⟨birdEx8.velocity.x, birdEx8.velocity.y * (99 / 100)⟩ } :=
  ⟨by norm_num [birdEx8, birdEx, CreateBird],
    by norm_num [birdEx8, birdEx, CreateBird],
    by norm_num [birdEx8, birdEx, CreateBird, SCALE, SCREEN_HEIGHT],
    by norm_num [birdEx8, birdEx, CreateBird, SCALE, SCREEN_HEIGHT, BASE_POS_Y],
    (C8_dt_zero_amended birdEx8 (by norm_num [birdEx8, birdEx, CreateBird])
      (by norm_num [birdEx8, birdEx, CreateBird])
      (by norm_num [birdEx8, birdEx, CreateBird, SCALE, SCREEN_HEIGHT])
      (by norm_num [birdEx8, birdEx, CreateBird, SCALE, SCREEN_HEIGHT, BASE_POS_Y])).1⟩

/-- The angle remap of `DrawBird` in closed form:
`Remap vy (-400) 800 (-30) 90 = (vy + 400) / 10 - 30`. -/
lemma Remap_angle_eq (vy : ℚ) :
    Remap vy MIN_VELOCITY MAX_VELOCITY (-30) 90 = (vy + 400) / 10 - 30 := by
  unfold Remap MIN_VELOCITY MAX_VELOCITY
  ring

/-- The angle written by `DrawBird`: frozen at the old value when
`velocity.y = 0`, otherwise the unclamped remap. -/
lemma drawBirdUpdate_angle (dt : ℚ) (b : Bird) :
    (drawBirdUpdate dt b).angle =
      if b.velocity.y = 0 then b.angle
      else Remap b.velocity.y MIN_VELOCITY MAX_VELOCITY (-30) 90 := by
  obtain ⟨⟨px, py⟩, ⟨vx, vy⟩, r, len, cf, ft, fd, ang⟩ := b
  simp only [drawBirdUpdate]
  split_ifs <;> simp_all

/-- C5: on every `DrawBird` call, if `velocity.y = 0` the angle keeps its
prior value, otherwise it becomes the linear remap of `velocity.y` from
`[MIN_VELOCITY, MAX_VELOCITY]` to `[-30, 90]` with no output clamping, so a
velocity above `MAX_VELOCITY` extrapolates past 90 and one below
`MIN_VELOCITY` extrapolates past -30. -/
theorem C5_angle_freeze_and_remap (b : Bird) (dt : ℚ) :
    (drawBirdUpdate dt b).angle =
      (if b.velocity.y = 0 then b.angle
       else Remap b.velocity.y MIN_VELOCITY MAX_VELOCITY (-30) 90) ∧
    (MAX_VELOCITY < b.velocity.y → 90 < (drawBirdUpdate dt b).angle) ∧
    (b.velocity.y < MIN_VELOCITY → (drawBirdUpdate dt b).angle < -30) := by
  have hang := drawBirdUpdate_angle dt b
  refine ⟨hang, fun h => ?_, fun h => ?_⟩
  · have hne : b.velocity.y ≠ 0 := by
      norm_num [MAX_VELOCITY] at h
      linarith
    rw [hang, if_neg hne, Remap_angle_eq]
    norm_num [MAX_VELOCITY] at h
    linarith
  · have hne : b.velocity.y ≠ 0 := by
      norm_num [MIN_VELOCITY] at h
      linarith
    rw [hang, if_neg hne, Remap_angle_eq]
    norm_num [MIN_VELOCITY] at h
    linarith

/-- The frame timer written by one `DrawBird` call: accumulate `dt`, and
subtract one `frameDuration` (keeping the remainder) when the accumulated
value reaches it. -/
lemma drawBirdUpdate_frameTimer (dt : ℚ) (b : Bird) :
    (drawBirdUpdate dt b).frameTimer =
      if b.frameDuration ≤ b.frameTimer + dt then b.frameTimer + dt - b.frameDuration
      else b.frameTimer + dt := by
  obtain ⟨⟨px, py⟩, ⟨vx, vy⟩, r, len, cf, ft, fd, ang⟩ := b
  simp only [drawBirdUpdate]
  split_ifs <;> simp_all [ge_iff_le]

/-- The frame index written by one `DrawBird` call: at most one advance,
wrapping to 0 past the last frame. -/
lemma drawBirdUpdate_currentFrame (dt : ℚ) (b : Bird) :
    (drawBirdUpdate dt b).currentFrame =
      if b.frameDuration ≤ b.frameTimer + dt then
        (if b.textureLength ≤ b.currentFrame + 1 then 0 else b.currentFrame + 1)
      else b.currentFrame := by
  obtain ⟨⟨px, py⟩, ⟨vx, vy⟩, r, len, cf, ft, fd, ang⟩ := b
  simp only [drawBirdUpdate]
  split_ifs <;> simp_all [ge_iff_le]

/-- A `DrawBird` call never writes `frameDuration` or `textureLength`. -/
lemma drawBirdUpdate_keeps (dt : ℚ) (b : Bird) :
    (drawBirdUpdate dt b).frameDuration = b.frameDuration ∧
    (drawBirdUpdate dt b).textureLength = b.textureLength := by
  obtain ⟨⟨px, py⟩, ⟨vx, vy⟩, r, len, cf, ft, fd, ang⟩ := b
  simp only [drawBirdUpdate]
  split_ifs <;> simp_all

/-- The branch-and-reset frame advance of `DrawBird` agrees with the modular
successor for an in-range frame index. -/
lemma natWrap (cf len : ℕ) (hcf : cf < len) :
    (if len ≤ cf + 1 then 0 else cf + 1) = (cf + 1) % len := by
  split_ifs with h
  · have he : cf + 1 = len := le_antisymm (Nat.succ_le_of_lt hcf) h
    rw [he, Nat.mod_self]
  · exact (Nat.mod_eq_of_lt (lt_of_not_ge h)).symm

/-- Two `DrawBird` calls at `dt = frameDuration / 2` from a zero frame
timer: the first call advances nothing, the second advances the frame by one
(mod the frame count) and returns the timer to exactly zero. -/
lemma drawBird_twoTick (b : Bird) (h0 : b.frameTimer = 0) (hd : 0 < b.frameDuration)
    (hcf : b.currentFrame < b.textureLength) :
    (drawBirdUpdate (b.frameDuration / 2) b).currentFrame = b.currentFrame ∧
    (drawBirdUpdate (b.frameDuration / 2)
        (drawBirdUpdate (b.frameDuration / 2) b)).frameTimer = 0 ∧
    (drawBirdUpdate (b.frameDuration / 2)
        (drawBirdUpdate (b.frameDuration / 2) b)).currentFrame =
      (b.currentFrame + 1) % b.textureLength := by
  have k1 := drawBirdUpdate_keeps (b.frameDuration / 2) b
  have t1 := drawBirdUpdate_frameTimer (b.frameDuration / 2) b
  have c1 := drawBirdUpdate_currentFrame (b.frameDuration / 2) b
  rw [h0] at t1 c1
  rw [if_neg (by linarith)] at t1
  rw [if_neg (by linarith)] at c1
  have t2 := drawBirdUpdate_frameTimer (b.frameDuration / 2)
    (drawBirdUpdate (b.frameDuration / 2) b)
  have c2 := drawBirdUpdate_currentFrame (b.frameDuration / 2)
    (drawBirdUpdate (b.frameDuration / 2) b)
  rw [t1, k1.1] at t2
  rw [t1, k1.1, k1.2, c1] at c2
  rw [if_pos (by linarith)] at t2
  rw [if_pos (by linarith)] at c2
  refine ⟨c1, by rw [t2]; ring, ?_⟩
  rw [c2, natWrap _ _ hcf]

/-- Iterating `DrawBird` at `dt = d / 2` from a zero frame timer: after `2k`
calls the timer is back to zero and the frame has advanced exactly `k`
steps modulo the frame count. -/
lemma drawBird_period (d : ℚ) (hd : 0 < d) :
    ∀ (k : ℕ) (b : Bird), b.frameTimer = 0 → b.frameDuration = d →
      b.currentFrame < b.textureLength →
      ((drawBirdUpdate (d / 2))^[2 * k] b).frameTimer = 0 ∧
      ((drawBirdUpdate (d / 2))^[2 * k] b).frameDuration = d ∧
      ((drawBirdUpdate (d / 2))^[2 * k] b).textureLength = b.textureLength ∧
      ((drawBirdUpdate (d / 2))^[2 * k] b).currentFrame =
        (b.currentFrame + k) % b.textureLength := by
  intro k
  induction k with
  | zero =>
    intro b h0 hdur hcf
    refine ⟨by simpa using h0, by simpa using hdur, by simp, ?_⟩
    simp [Nat.mod_eq_of_lt hcf]
  | succ k ih =>
    intro b h0 hdur hcf
    have hlen : 0 < b.textureLength := lt_of_le_of_lt (Nat.zero_le _) hcf
    have htwo := drawBird_twoTick b h0 (hdur ▸ hd) hcf
    rw [hdur] at htwo
    have hk1 := drawBirdUpdate_keeps (d / 2) b
    have hk2 := drawBirdUpdate_keeps (d / 2) (drawBirdUpdate (d / 2) b)
    have hrw : 2 * (k + 1) = 2 * k + 2 := by ring
    have hiter : (drawBirdUpdate (d / 2))^[2 * (k + 1)] b =
        (drawBirdUpdate (d / 2))^[2 * k]
          (drawBirdUpdate (d / 2) (drawBirdUpdate (d / 2) b)) := by
      rw [hrw, show 2 * k + 2 = 2 * k + 1 + 1 from rfl, Function.iterate_succ_apply,
        Function.iterate_succ_apply]
    have hs := ih (drawBirdUpdate (d / 2) (drawBirdUpdate (d / 2) b))
      htwo.2.1 (by rw [hk2.1, hk1.1, hdur])
      (by rw [htwo.2.2, hk2.2, hk1.2]; exact Nat.mod_lt _ hlen)
    rw [hiter]
    refine ⟨hs.1, hs.2.1, ?_, ?_⟩
    · rw [hs.2.2.1, hk2.2, hk1.2]
    · rw [hs.2.2.2, htwo.2.2, hk2.2, hk1.2, Nat.mod_add_mod]
      congr 1
      omega

/-- C6: every `DrawBird` call adds `dt` to the frame timer, subtracting
`frameDuration` (keeping the remainder) and advancing the frame exactly once
with wrap-around whenever the accumulated timer reaches `frameDuration` — so
at most one advance per call however large `dt` is; an in-range frame index
stays in `[0, frameCount)`; and at constant `dt = frameDuration / 2` from a
zero timer the frame advances exactly once every two ticks (it is unchanged
at every odd tick and has advanced `k` steps mod the frame count after `2k`
ticks). -/
theorem C6_frame_animation (b : Bird) (dt : ℚ) :
    ((drawBirdUpdate dt b).frameTimer =
      if b.frameDuration ≤ b.frameTimer + dt then b.frameTimer + dt - b.frameDuration
      else b.frameTimer + dt) ∧
    ((drawBirdUpdate dt b).currentFrame =
      if b.frameDuration ≤ b.frameTimer + dt then
        (if b.textureLength ≤ b.currentFrame + 1 then 0 else b.currentFrame + 1)
      else b.currentFrame) ∧
    (b.currentFrame < b.textureLength →
      (drawBirdUpdate dt b).currentFrame < b.textureLength) ∧
    (b.frameTimer = 0 → 0 < b.frameDuration → b.currentFrame < b.textureLength →
      dt = b.frameDuration / 2 →
      ∀ k : ℕ,
        ((drawBirdUpdate dt)^[2 * k] b).currentFrame =
          (b.currentFrame + k) % b.textureLength ∧
        ((drawBirdUpdate dt)^[2 * k + 1] b).currentFrame =
          (b.currentFrame + k) % b.textureLength ∧
        ((drawBirdUpdate dt)^[2 * k] b).frameTimer = 0) := by
  refine ⟨drawBirdUpdate_frameTimer dt b, drawBirdUpdate_currentFrame dt b, ?_, ?_⟩
  · intro hcf
    rw [drawBirdUpdate_currentFrame]
    split_ifs <;> omega
  · intro h0 hd hcf hdt
    subst hdt
    intro k
    have hp := drawBird_period b.frameDuration hd k b h0 rfl hcf
    refine ⟨hp.2.2.2, ?_, hp.1⟩
    have hodd : (drawBirdUpdate (b.frameDuration / 2))^[2 * k + 1] b =
        drawBirdUpdate (b.frameDuration / 2)
          ((drawBirdUpdate (b.frameDuration / 2))^[2 * k] b) :=
      Function.iterate_succ_apply' _ _ _
    rw [hodd, drawBirdUpdate_currentFrame, hp.1, hp.2.1]
    rw [if_neg (by linarith)]
    exact hp.2.2.2

/-- C7: within one started tick, the update is exactly the composition
jump-assignment, gravity integration, vertical-velocity clamp, position
integration, `0.99` damping, then the two position clamps, in that order;
the jump assignment overwrites the prior velocity with `jumpForce` in the
input phase (so gravity does not overwrite the jump — it integrates on top
of the jump velocity), position integration this tick uses the
clamped-but-not-yet-damped velocity, and the damping applies only after
position integration, so it affects only the velocity carried into the next
tick. -/
theorem C7_update_ordering (b : Bird) (dt : ℚ) :
    (∀ jump : Bool, physicsTick jump dt b =
      ceilingClampStep (groundClampStep (dampStep (positionStep dt
        (clampStep (gravityStep dt (inputStep jump b))))))) ∧
    (inputStep true b).velocity = jumpForce ∧
    (gravityStep dt (inputStep true b)).velocity.y = jumpForce.y + gravity.y * dt ∧
    (positionStep dt (clampStep (gravityStep dt (inputStep true b)))).position.y =
      b.position.y + Clamp (jumpForce.y + gravity.y * dt) (-1200) 1500 * dt ∧
    (dampStep (positionStep dt (clampStep (gravityStep dt (inputStep true b))))).velocity.y =
      Clamp (jumpForce.y + gravity.y * dt) (-1200) 1500 * (99 / 100) :=
  ⟨fun jump => physicsTick_eq_steps jump dt b, rfl, rfl, rfl, rfl⟩

/-- A `DrawBird` call never writes the pose (position or velocity). -/
lemma drawBirdUpdate_pose (dt : ℚ) (b : Bird) :
    (drawBirdUpdate dt b).position = b.position ∧
    (drawBirdUpdate dt b).velocity = b.velocity := by
  obtain ⟨⟨px, py⟩, ⟨vx, vy⟩, r, len, cf, ft, fd, ang⟩ := b
  simp only [drawBirdUpdate]
  split_ifs <;> simp_all

/-- A physics tick on a bird with zero horizontal velocity keeps the
horizontal velocity zero and the horizontal position unchanged: gravity and
the jump force are purely vertical and every clamp writes only `y`. -/
lemma physicsTick_horizontal (jump : Bool) (dt : ℚ) (b : Bird)
    (hv : b.velocity.x = 0) :
    (physicsTick jump dt b).velocity.x = 0 ∧
    (physicsTick jump dt b).position.x = b.position.x := by
  cases jump <;>
    · unfold physicsTick
      simp only [Vector2Add, Vector2Scale, gravity, jumpForce]
      split_ifs <;> simp_all

/-- One main-loop iteration preserves the horizontal pose invariant of the
bird. -/
lemma frameStep_horizontal (inp : FrameInput) (g : GameState)
    (h1 : g.bird.position.x = 100) (h2 : g.bird.velocity.x = 0) :
    (frameStep inp g).bird.position.x = 100 ∧
    (frameStep inp g).bird.velocity.x = 0 := by
  unfold frameStep
  dsimp only
  split_ifs with hstart
  · have hp := physicsTick_horizontal (inp.spacePressed && (g.gameStarted || inp.sPressed))
      inp.dt g.bird h2
    have hdr := drawBirdUpdate_pose inp.dt
      (physicsTick (inp.spacePressed && (g.gameStarted || inp.sPressed)) inp.dt g.bird)
    rw [hdr.1, hdr.2]
    exact ⟨by rw [hp.2, h1], hp.1⟩
  · have hdr := drawBirdUpdate_pose inp.dt g.bird
    rw [hdr.1, hdr.2]
    exact ⟨h1, h2⟩

/-- The horizontal pose invariant holds along any run of the main loop. -/
lemma runFrames_horizontal (inputs : List FrameInput) :
    ∀ g : GameState, g.bird.position.x = 100 → g.bird.velocity.x = 0 →
      (runFrames inputs g).bird.position.x = 100 ∧
      (runFrames inputs g).bird.velocity.x = 0 := by
  induction inputs with
  | nil => exact fun g h1 h2 => ⟨h1, h2⟩
  | cons i is ih =>
    intro g h1 h2
    have h := frameStep_horizontal i g h1 h2
    exact ih (frameStep i g) h.1 h.2

/-- C10: in every state reachable by the main loop from the startup state —
any sequence of key presses and frame delta times — the bird keeps
`velocity.x = 0` and `position.x = 100`, its creation values: gravity
`(0, 980)` and the jump force `(0, -400)` are purely vertical and every
clamp and the damping write only `y`, so the bird never moves horizontally
and all apparent motion comes from the scrolling layers. -/
theorem C10_no_horizontal_motion (firstW : ℚ) (bgW bgH baseW baseH : ℤ)
    (inputs : List FrameInput) :
    (runFrames inputs (initialState firstW bgW bgH baseW baseH)).bird.position.x = 100 ∧
    (runFrames inputs (initialState firstW bgW bgH baseW baseH)).bird.velocity.x = 0 :=
  runFrames_horizontal inputs _ rfl rfl

end Flappy
